import Mathlib

/-!
Verification of the `china_southern_power_grid_stat` integration.

This file gives a shallow embedding, in Lean 4, of the parts of the
repository that the checked claims are about:

* `csg_client/const.py` — the relevant vendor constants;
* `csg_client/__init__.py` — response-envelope dispatch, parameter
  encryption, session dump/load, `verify_login`;
* `sensor.py` — the refresh coordinator: cache-policy flags,
  usage/cost series merging, per-facet failure isolation, the
  last-month fetch decision and the derived latest-day fields.

Python's sentinel strings `STATE_UNAVAILABLE` and
`STATE_UPDATE_UNCHANGED` are modelled by dedicated constructors of the
`Avail` and `Cache` types below; numbers are modelled by `Rat`;
fallible Python code (raising exceptions) is modelled with `Except`.
-/

namespace CSG

/-! ## Constants (csg_client/const.py and const.py) -/

def RESP_STA_SUCCESS : String := "00"

def RESP_STA_NO_LOGIN : String := "04"

def RESP_STA_LOGIN_WRONG_CREDENTIAL : String := "00010002"

/-- From `const.py`: the first n days of a month on which last month's data is refetched. -/
def SETTING_LAST_MONTH_UPDATE_DAY_THRESHOLD : Nat := 3

/-- From `const.py`: the first n days of January on which last year's data is refetched. -/
def SETTING_LAST_YEAR_UPDATE_DAY_THRESHOLD : Nat := 7

/-! ## Field states

A coordinator field that is either a concrete value or the sentinel
string `STATE_UNAVAILABLE` is modelled by `Avail`; a field that can in
addition be the sentinel `STATE_UPDATE_UNCHANGED` (skipped by the
caching policy) is modelled by `Cache`. -/

inductive Avail (α : Type) where
  | val : α → Avail α
  | unavailable : Avail α
deriving DecidableEq, Repr

inductive Cache (α : Type) where
  | val : α → Cache α
  | unavailable : Cache α
  | unchanged : Cache α
deriving DecidableEq, Repr

/-- Inclusion of the two-state field into the three-state field. -/
def Avail.toCache : Avail α → Cache α
  | .val a => .val a
  | .unavailable => .unavailable

/-- Boolean test mirroring the Python comparison `x == STATE_UNAVAILABLE`. -/
def Avail.isUnavailable : Avail α → Bool
  | .val _ => false
  | .unavailable => true

/-! ## By-day series entries

`get_month_daily_usage_detail` produces dicts `{date, kwh}` (no
`charge` key, modelled as `charge = none`); `get_month_daily_cost_detail`
produces dicts `{date, charge, kwh}` (`charge = some _`). -/

structure DayEntry where
  date : String
  kwh : Rat
  charge : Option Rat
deriving DecidableEq, Repr

/-- Default entry used with `List.getD` in theorem statements. -/
def dummyDay : DayEntry := { date := "", kwh := 0, charge := none }

/-! ## merge_by_day_data (sensor.py lines 547-589) -/

/-- The in-place splice loop of `merge_by_day_data`:
`for idx, item in enumerate(by_day_from_cost): by_day[idx][WF_ATTR_CHARGE] = item[WF_ATTR_CHARGE]`,
executed on a copy of the usage series.  (The coordinator only reaches
this loop when the cost series is strictly shorter than the usage
series, so every index is in range.) -/
def spliceCharge : List DayEntry → List DayEntry → List DayEntry
  | us, [] => us
  | [], _ => []
  | u :: us, c :: cs => { u with charge := c.charge } :: spliceCharge us cs

/-- Embedding of `CSGCoordinator.merge_by_day_data`.  Inputs are either a
concrete series/total or the `STATE_UNAVAILABLE` sentinel, exactly as at
the two call sites. -/
def merge_by_day_data
    (by_day_from_cost : Avail (List DayEntry)) (kwh_from_cost : Avail Rat)
    (by_day_from_usage : Avail (List DayEntry)) (kwh_from_usage : Avail Rat) :
    Avail (List DayEntry) × Avail Rat :=
  let by_day : Avail (List DayEntry) :=
    match by_day_from_cost, by_day_from_usage with
    | .unavailable, .unavailable => .unavailable
    | .unavailable, .val u => .val u
    | .val c, .unavailable => .val c
    | .val c, .val u =>
      if u.length ≤ c.length then
        -- the result from daily cost is newer
        .val c
      else
        -- the result from daily usage is newer; splice in the cost data
        .val (spliceCharge u c)
  let kwh : Avail Rat :=
    match kwh_from_cost, kwh_from_usage with
    | .unavailable, .unavailable => .unavailable
    | .unavailable, .val u => .val u
    | .val c, .unavailable => .val c
    | .val c, .val u => .val (max c u)
  (by_day, kwh)

/-! ## Cache-policy flags (sensor.py `_update_states`, lines 849-907) -/

/-- Embedding of the flag computation in `CSGCoordinator._update_states`.
`lastUpdateDay` is `hass.data[DOMAIN][entry_id][DATA_KEY_LAST_UPDATE_DAY]`:
`none` means no tick has ever completed for this config entry.  Returns
`(update_last_month, update_last_year)`. -/
def update_flags (thisMonth thisDay : Nat) (lastUpdateDay : Option Nat) : Bool × Bool :=
  match lastUpdateDay with
  | none => (true, true)
  | some lud =>
    let update_last_month := decide (thisDay ≤ SETTING_LAST_MONTH_UPDATE_DAY_THRESHOLD)
    let today_first_update_triggered := lud == thisDay
    let update_last_year :=
      decide (thisMonth = 1) && decide (thisDay ≤ SETTING_LAST_YEAR_UPDATE_DAY_THRESHOLD)
        && !today_first_update_triggered
    (update_last_month, update_last_year)

/-! ## Error taxonomy and raw API dispatch (csg_client/__init__.py) -/

/-- The exception taxonomy of the client: `CSGHTTPError` (a `CSGAPIError`
subclass for unexpected HTTP status), `NotLoggedIn`, `InvalidCredentials`,
and the generic `CSGAPIError` carrying the vendor status and message. -/
inductive CSGError where
  | http : Nat → CSGError
  | notLoggedIn : String → Option String → CSGError
  | invalidCredentials : String → Option String → CSGError
  | api : String → Option String → CSGError
deriving DecidableEq, Repr

/-- The decoded response envelope `{sta, message, data}`. -/
structure Envelope (α : Type) where
  sta : String
  message : Option String
  data : α
deriving DecidableEq, Repr

/-- A stubbed transport response: HTTP status code, the `x-auth-token`
response header, and the JSON envelope. -/
structure HttpResponse (α : Type) where
  status_code : Nat
  xAuthToken : String
  envelope : Envelope α
deriving DecidableEq, Repr

/-- Embedding of `CSGClient._make_request`: a non-200 HTTP status raises
`CSGHTTPError`; otherwise the headers and decoded body are returned. -/
def make_request (r : HttpResponse α) : Except CSGError (String × Envelope α) :=
  if r.status_code ≠ 200 then .error (.http r.status_code)
  else .ok (r.xAuthToken, r.envelope)

/-- Embedding of `CSGClient._handle_unsuccessful_response` (lines 253-268):
status `"04"` raises `NotLoggedIn`, anything else the generic `CSGAPIError`. -/
def handle_unsuccessful_response (env : Envelope α) : CSGError :=
  if env.sta = RESP_STA_NO_LOGIN then .notLoggedIn env.sta env.message
  else .api env.sta env.message

/-- Embedding of the shared shape of every raw API method
(`api_get_user_info`, `api_query_authentication_result`, ...): on a 200
response with success status return the data payload, otherwise dispatch
through `_handle_unsuccessful_response`. -/
def raw_api_call (r : HttpResponse α) : Except CSGError α :=
  match make_request r with
  | .error e => .error e
  | .ok (_, env) =>
    if env.sta = RESP_STA_SUCCESS then .ok env.data
    else .error (handle_unsuccessful_response env)

/-- Embedding of `CSGClient.api_login_with_password` (lines 304-326): like a
raw call, but on success the auth token comes from the response header, and
the wrong-credential status raises `InvalidCredentials` before the generic
handler runs. -/
def api_login_with_password (r : HttpResponse α) : Except CSGError String :=
  match make_request r with
  | .error e => .error e
  | .ok (token, env) =>
    if env.sta = RESP_STA_SUCCESS then .ok token
    else if env.sta = RESP_STA_LOGIN_WRONG_CREDENTIAL then
      .error (.invalidCredentials env.sta env.message)
    else .error (handle_unsuccessful_response env)

/-- Embedding of `CSGClient.api_query_authentication_result`, the lightweight
authenticated call used by `verify_login`. -/
def api_query_authentication_result (r : HttpResponse α) : Except CSGError α :=
  raw_api_call r

/-- Embedding of `CSGClient.verify_login` (lines 531-537): catches exactly
`NotLoggedIn` and converts it to `false`; success is `true`; every other
error propagates. -/
def verify_login (r : HttpResponse α) : Except CSGError Bool :=
  match api_query_authentication_result r with
  | .ok _ => .ok true
  | .error (.notLoggedIn _ _) => .ok false
  | .error e => .error e

/-! ## Session serialisation (csg_client/__init__.py, CSGClient.load/dump) -/

/-- The `LoginType` enum from `csg_client/const.py`. -/
inductive LoginType where
  | sms
  | pwd
  | wx_qr
  | ali_qr
  | csg_qr
deriving DecidableEq, Repr

/-- The vendor string value of each `LoginType` member. -/
def LoginType.value : LoginType → String
  | .sms => "11"
  | .pwd => "10"
  | .wx_qr => "20"
  | .ali_qr => "21"
  | .csg_qr => "30"

/-- Python's `LoginType(v)` enum constructor: `none` models the `ValueError`
raised for a string that is not a member value. -/
def LoginType.ofValue (s : String) : Option LoginType :=
  if s = "11" then some .sms
  else if s = "10" then some .pwd
  else if s = "20" then some .wx_qr
  else if s = "21" then some .ali_qr
  else if s = "30" then some .csg_qr
  else none

/-- The session-relevant state of a `CSGClient` object: auth token, login
type, and the customer number resolved later by `initialize()`. -/
structure CSGClient where
  auth_token : String
  login_type : LoginType
  customer_number : String
deriving DecidableEq, Repr

/-- A serialized session mapping as seen by `CSGClient.load`: `none` models a
missing key (Python `data.get(k)` returning `None`). -/
structure SessionData where
  auth_token : Option String
  login_type : Option String
deriving DecidableEq, Repr

/-- Python truthiness of `data.get(k)` for an optional string: falsy when the
key is missing or its value is the empty string. -/
def pyTruthy : Option String → Bool
  | none => false
  | some s => !(s == "")

/-- Embedding of `CSGClient.load` (lines 490-504): raise `ValueError` on a
missing/falsy `auth_token` or `login_type`, then build a client with an empty
customer number; no network call is involved. -/
def CSGClient.load (data : SessionData) : Except String CSGClient :=
  if !pyTruthy data.auth_token then .error "missing parameter: auth_token"
  else if !pyTruthy data.login_type then .error "missing parameter: login_type"
  else
    match LoginType.ofValue (data.login_type.getD "") with
    | some lt =>
      .ok { auth_token := data.auth_token.getD "", login_type := lt,
            customer_number := "" }
    | none => .error "invalid login type"

/-- Embedding of `CSGClient.dump` (lines 506-511): only the auth token and
the login type value are serialized. -/
def CSGClient.dump (c : CSGClient) : SessionData :=
  { auth_token := some c.auth_token, login_type := some c.login_type.value }

/-- Embedding of the session mapping built by
`CSGCoordinator._async_refresh_client` (sensor.py lines 359-378): it contains
only the `auth_token` key. -/
def refresh_client_session_data (auth_token : String) : SessionData :=
  { auth_token := some auth_token, login_type := none }

/-! ## Coordinator per-account update (sensor.py)

`_async_fetch` catches `TimeoutError`, `NotLoggedIn`, `CSGAPIError` and any
other exception and returns `(False, err)`; each `_async_update_*` method
converts a failed fetch into `STATE_UNAVAILABLE` fields.  A facet fetch is
therefore modelled as `Except FetchError`, and the per-account update as a
total function from the outcome of every fetch to the snapshot — totality is
the embedding of "one facet's failure does not abort the tick". -/

inductive FetchError where
  | timeout
  | notLoggedIn : String → Option String → FetchError
  | apiError : String → Option String → FetchError
  | other
deriving DecidableEq, Repr

/-- A by-month entry of `get_year_month_stats`. -/
structure MonthEntry where
  month : String
  charge : Rat
  kwh : Rat
deriving DecidableEq, Repr

/-- The ladder dict of `get_month_daily_cost_detail`; each entry may be
`null` in the vendor response. -/
structure Ladder where
  ladder : Option Int
  start_date : Option String
  remaining_kwh : Option Rat
  tariff : Option Rat
deriving DecidableEq, Repr

/-- The result tuple of `get_month_daily_cost_detail`: total cost and total
kWh may be `None` even when the per-day rows are populated. -/
structure CostDetail where
  total_cost : Option Rat
  total_kwh : Option Rat
  ladder : Ladder
  by_day : List DayEntry
deriving DecidableEq, Repr

/-- The outcome of every fetch issued by `_async_update_account_data`
(one slot per facet call of the stub API client). -/
structure ApiOutcomes where
  bal_arr : Except FetchError (Rat × Rat)
  yesterday : Except FetchError Rat
  this_year : Except FetchError (Rat × Rat × List MonthEntry)
  last_year : Except FetchError (Rat × Rat × List MonthEntry)
  this_month_usage : Except FetchError (Rat × List DayEntry)
  this_month_cost : Except FetchError CostDetail
  last_month_usage : Except FetchError (Rat × List DayEntry)
  last_month_cost : Except FetchError CostDetail

/-- The per-account record published in `_gathered_data`. -/
structure AccountSnapshot where
  balance : Avail Rat
  arrears : Avail Rat
  yesterday_kwh : Avail Rat
  this_year_kwh : Avail Rat
  this_year_cost : Avail Rat
  this_year_by_month : Avail (List MonthEntry)
  last_year_kwh : Cache Rat
  last_year_cost : Cache Rat
  last_year_by_month : Cache (List MonthEntry)
  this_month_kwh : Avail Rat
  this_month_cost : Avail Rat
  this_month_by_day : Avail (List DayEntry)
  current_ladder : Avail Int
  current_ladder_remaining_kwh : Avail Rat
  current_ladder_tariff : Avail Rat
  current_ladder_start_date : Avail String
  last_month_kwh : Cache Rat
  last_month_cost : Cache Rat
  last_month_by_day : Cache (List DayEntry)
  latest_day_kwh : Avail Rat
  latest_day_cost : Avail Rat
  latest_day_date : Avail String

/-- Python's `x if x is not None else STATE_UNAVAILABLE`. -/
def optAvail : Option α → Avail α
  | some v => .val v
  | none => .unavailable

/-- Embedding of `_async_update_bal_arr` (lines 410-430). -/
def update_bal_arr (r : Except FetchError (Rat × Rat)) : Avail Rat × Avail Rat :=
  match r with
  | .ok (b, a) => (.val b, .val a)
  | .error _ => (.unavailable, .unavailable)

/-- Embedding of `_async_update_yesterday_kwh` (lines 432-454). -/
def update_yesterday_kwh (r : Except FetchError Rat) : Avail Rat :=
  match r with
  | .ok v => .val v
  | .error _ => .unavailable

/-- Embedding of `_async_update_this_year_stats`; the fetch result tuple is
`(cost, kwh, by_month)` and the returned triple is `(kwh, cost, by_month)`. -/
def update_this_year_stats (r : Except FetchError (Rat × Rat × List MonthEntry)) :
    Avail Rat × Avail Rat × Avail (List MonthEntry) :=
  match r with
  | .ok (cost, kwh, bm) => (.val kwh, .val cost, .val bm)
  | .error _ => (.unavailable, .unavailable, .unavailable)

/-- Embedding of `_async_update_last_year_stats` (lines 494-545): when the
cache-policy flag is off the fields are marked `STATE_UPDATE_UNCHANGED`. -/
def update_last_year_stats (if_update_last_year : Bool)
    (r : Except FetchError (Rat × Rat × List MonthEntry)) :
    Cache Rat × Cache Rat × Cache (List MonthEntry) :=
  if !if_update_last_year then (.unchanged, .unchanged, .unchanged)
  else
    match r with
    | .ok (cost, kwh, bm) => (.val kwh, .val cost, .val bm)
    | .error _ => (.unavailable, .unavailable, .unavailable)

/-- The fields written by `_async_update_this_month_stats_and_ladder`. -/
structure ThisMonthResult where
  kwh : Avail Rat
  cost : Avail Rat
  by_day : Avail (List DayEntry)
  ladder_stage : Avail Int
  ladder_remaining_kwh : Avail Rat
  ladder_tariff : Avail Rat
  ladder_start_date : Avail String

/-- Embedding of `_async_update_this_month_stats_and_ladder`
(lines 591-700), without the flag side effect (see `update_account_data`). -/
def update_this_month_stats_and_ladder
    (ru : Except FetchError (Rat × List DayEntry))
    (rc : Except FetchError CostDetail) : ThisMonthResult :=
  let kwh_from_usage : Avail Rat :=
    match ru with
    | .ok (k, _) => .val k
    | .error _ => .unavailable
  let by_day_from_usage : Avail (List DayEntry) :=
    match ru with
    | .ok (_, bd) => .val bd
    | .error _ => .unavailable
  let this_month_cost : Avail Rat :=
    match rc with
    | .ok cd => optAvail cd.total_cost
    | .error _ => .unavailable
  let kwh_from_cost : Avail Rat :=
    match rc with
    | .ok cd => optAvail cd.total_kwh
    | .error _ => .unavailable
  let by_day_from_cost : Avail (List DayEntry) :=
    match rc with
    | .ok cd => .val cd.by_day
    | .error _ => .unavailable
  let ladder_stage : Avail Int :=
    match rc with
    | .ok cd => optAvail cd.ladder.ladder
    | .error _ => .unavailable
  let ladder_remaining_kwh : Avail Rat :=
    match rc with
    | .ok cd => optAvail cd.ladder.remaining_kwh
    | .error _ => .unavailable
  let ladder_tariff : Avail Rat :=
    match rc with
    | .ok cd => optAvail cd.ladder.tariff
    | .error _ => .unavailable
  let ladder_start_date : Avail String :=
    match rc with
    | .ok cd => optAvail cd.ladder.start_date
    | .error _ => .unavailable
  let m := merge_by_day_data by_day_from_cost kwh_from_cost
    by_day_from_usage kwh_from_usage
  { kwh := m.2, cost := this_month_cost, by_day := m.1,
    ladder_stage := ladder_stage,
    ladder_remaining_kwh := ladder_remaining_kwh,
    ladder_tariff := ladder_tariff,
    ladder_start_date := ladder_start_date }

/-- Sum of the `charge` fields of a by-day series (`sum(d[WF_ATTR_CHARGE] ...)`;
cost-endpoint entries always populate `charge`). -/
def sum_charges (l : List DayEntry) : Rat :=
  (l.map (fun d => d.charge.getD 0)).sum

/-- Sum of the `kwh` fields of a by-day series. -/
def sum_kwh (l : List DayEntry) : Rat :=
  (l.map (fun d => d.kwh)).sum

/-- The fields written by `_async_update_last_month_stats`. -/
structure LastMonthResult where
  kwh : Cache Rat
  cost : Cache Rat
  by_day : Cache (List DayEntry)

/-- Embedding of `_async_update_last_month_stats` (lines 702-792).  The
`if_update_last_month` argument is the flag value after the this-month update
has run (the code waits on `_this_month_update_completed_flag` before its
second check).  `if not last_month_cost` / `if not last_month_kwh_from_cost`
are Python truthiness tests, so `None` and `0` both trigger the recomputation
from the by-day rows. -/
def update_last_month_stats (if_update_last_month : Bool)
    (ru : Except FetchError (Rat × List DayEntry))
    (rc : Except FetchError CostDetail) : LastMonthResult :=
  if !if_update_last_month then
    { kwh := .unchanged, cost := .unchanged, by_day := .unchanged }
  else
    let kwh_from_usage : Avail Rat :=
      match ru with
      | .ok (k, _) => .val k
      | .error _ => .unavailable
    let by_day_from_usage : Avail (List DayEntry) :=
      match ru with
      | .ok (_, bd) => .val bd
      | .error _ => .unavailable
    let last_month_cost : Avail Rat :=
      match rc with
      | .ok cd =>
        match cd.total_cost with
        | some x => if x = 0 then .val (sum_charges cd.by_day) else .val x
        | none => .val (sum_charges cd.by_day)
      | .error _ => .unavailable
    let kwh_from_cost : Avail Rat :=
      match rc with
      | .ok cd =>
        match cd.total_kwh with
        | some x => if x = 0 then .val (sum_kwh cd.by_day) else .val x
        | none => .val (sum_kwh cd.by_day)
      | .error _ => .unavailable
    let by_day_from_cost : Avail (List DayEntry) :=
      match rc with
      | .ok cd => .val cd.by_day
      | .error _ => .unavailable
    let m := merge_by_day_data by_day_from_cost kwh_from_cost
      by_day_from_usage kwh_from_usage
    { kwh := m.2.toCache, cost := last_month_cost.toCache,
      by_day := m.1.toCache }

/-- Python's `d.get(WF_ATTR_CHARGE) or STATE_UNAVAILABLE` on a by-day entry:
a missing charge key, and also a charge of `0` (falsy float), both give the
unavailable sentinel. -/
def py_or_unavailable : Option Rat → Avail Rat
  | some c => if c = 0 then .unavailable else .val c
  | none => .unavailable

/-- The last-month fallback branch of `_update_latest_day`: usable only when
the series is a concrete (neither unavailable nor unchanged) non-empty
list. -/
def latest_day_from_last_month (lastM : Cache (List DayEntry)) :
    Avail Rat × Avail Rat × Avail String :=
  match lastM with
  | .val ll =>
    match ll.getLast? with
    | some e => (.val e.kwh, .unavailable, .val e.date)
    | none => (.unavailable, .unavailable, .unavailable)
  | .unavailable => (.unavailable, .unavailable, .unavailable)
  | .unchanged => (.unavailable, .unavailable, .unavailable)

/-- Embedding of `CSGCoordinator._update_latest_day` (lines 794-847),
returning `(latest_day_kwh, latest_day_cost, latest_day_date)`. -/
def update_latest_day (thisM : Avail (List DayEntry))
    (lastM : Cache (List DayEntry)) : Avail Rat × Avail Rat × Avail String :=
  match thisM with
  | .val tl =>
    match tl.getLast? with
    | some e => (.val e.kwh, py_or_unavailable e.charge, .val e.date)
    | none => latest_day_from_last_month lastM
  | .unavailable => latest_day_from_last_month lastM

/-- The cache-policy flags as computed by `_update_states` at the start of a
tick. -/
structure UpdateFlags where
  if_update_last_month : Bool
  if_update_last_year : Bool

/-- The effective last-month fetch decision of `_async_update_last_month_stats`
(sensor.py lines 704-726).  `this_month_completed_flag_set` is the state of
the coordinator's `_this_month_update_completed_flag` when the wait at line
708 is reached: the `asyncio.Event` is created once in `__init__` (line 356),
set at line 700 and never cleared, so it is unset only until the first
this-month update of the coordinator's lifetime completes.  When the
tick-start flag is false and the event is already set, `wait()` returns
without suspending and the re-check at line 710 runs before the this-month
coroutine has resumed from its first network await, so it reads the
tick-start flag again; only when the event is genuinely unset does the wait
block until line 700, letting the re-check observe the flag possibly forced
to `True` at line 674 (merged this-month series unavailable). -/
def last_month_update_decision (flag_at_tick_start : Bool)
    (this_month_completed_flag_set : Bool)
    (this_month_by_day_unavailable : Bool) : Bool :=
  if flag_at_tick_start then true
  else if this_month_completed_flag_set then flag_at_tick_start
  else flag_at_tick_start || this_month_by_day_unavailable

/-- Embedding of `_async_update_account_data` (lines 909-944), sequentialised
per account: `_update_latest_day` runs after the facet gather, and the
last-month updater's skip decision is `last_month_update_decision` above,
parametrised by the state of the this-month completion event at the time of
the wait.  The function is total: every fetch failure degrades to
unavailable fields instead of raising. -/
def update_account_data (flags : UpdateFlags)
    (this_month_completed_flag_set : Bool) (o : ApiOutcomes) : AccountSnapshot :=
  let ba := update_bal_arr o.bal_arr
  let yk := update_yesterday_kwh o.yesterday
  let ty := update_this_year_stats o.this_year
  let ly := update_last_year_stats flags.if_update_last_year o.last_year
  let tm := update_this_month_stats_and_ladder o.this_month_usage o.this_month_cost
  let if_update_last_month := last_month_update_decision flags.if_update_last_month
    this_month_completed_flag_set tm.by_day.isUnavailable
  let lm := update_last_month_stats if_update_last_month
    o.last_month_usage o.last_month_cost
  let ld := update_latest_day tm.by_day lm.by_day
  { balance := ba.1, arrears := ba.2,
    yesterday_kwh := yk,
    this_year_kwh := ty.1, this_year_cost := ty.2.1, this_year_by_month := ty.2.2,
    last_year_kwh := ly.1, last_year_cost := ly.2.1, last_year_by_month := ly.2.2,
    this_month_kwh := tm.kwh, this_month_cost := tm.cost,
    this_month_by_day := tm.by_day,
    current_ladder := tm.ladder_stage,
    current_ladder_remaining_kwh := tm.ladder_remaining_kwh,
    current_ladder_tariff := tm.ladder_tariff,
    current_ladder_start_date := tm.ladder_start_date,
    last_month_kwh := lm.kwh, last_month_cost := lm.cost,
    last_month_by_day := lm.by_day,
    latest_day_kwh := ld.1, latest_day_cost := ld.2.1,
    latest_day_date := ld.2.2 }

/-- Concrete fetch outcomes for the C7 failing tick: both this-month fetches
time out (so the merged this-month series is unavailable) while the
last-month data would be available from the API. -/
def c7_failing_outcomes : ApiOutcomes :=
  { bal_arr := .ok (100, 0),
    yesterday := .ok 3,
    this_year := .ok (500, 400, []),
    last_year := .ok (600, 450, []),
    this_month_usage := .error .timeout,
    this_month_cost := .error .timeout,
    last_month_usage := .ok (20, [{ date := "2023-04-30", kwh := 20, charge := none }]),
    last_month_cost := .ok
      { total_cost := none, total_kwh := none,
        ladder := { ladder := none, start_date := none,
                    remaining_kwh := none, tariff := none },
        by_day := [{ date := "2023-04-30", kwh := 20, charge := some 14 }] } }

/-- The stubbed fetch outcomes of the C4 scenario: the yesterday-kWh call
raises `CSGAPIError` while every other facet call succeeds. -/
def c4_outcomes (sta : String) (msg : Option String)
    (b a tyc tyk lyc lyk : Rat) (tybm lybm : List MonthEntry)
    (uk tc tk luk : Rat) (lst : Int) (lsd : String) (lrk ltf : Rat)
    (ubd cbd lubd : List DayEntry) (lad2 : Ladder)
    (lcbd : List DayEntry) : ApiOutcomes :=
  { bal_arr := .ok (b, a),
    yesterday := .error (.apiError sta msg),
    this_year := .ok (tyc, tyk, tybm),
    last_year := .ok (lyc, lyk, lybm),
    this_month_usage := .ok (uk, ubd),
    this_month_cost := .ok
      { total_cost := some tc, total_kwh := some tk,
        ladder := { ladder := some lst, start_date := some lsd,
                    remaining_kwh := some lrk, tariff := some ltf },
        by_day := cbd },
    last_month_usage := .ok (luk, lubd),
    last_month_cost := .ok
      { total_cost := none, total_kwh := none, ladder := lad2, by_day := lcbd } }

/-! ## Parameter encryption (csg_client/__init__.py, encrypt_params /
decrypt_params)

The payload mappings the client passes to `encrypt_params` are flat
string-keyed dicts of scalar values, and that is how they are modelled here;
numbers are modelled as integers. -/

/-- A JSON-compatible scalar value of a parameter mapping. -/
inductive JValue where
  | null : JValue
  | bool : Bool → JValue
  | num : Int → JValue
  | str : String → JValue
deriving DecidableEq, Repr

/-- Lowercase hex digit, as used by Python's `\u00XX` escapes. -/
def hexDigitChar (n : Nat) : Char :=
  if n < 10 then Char.ofNat (48 + n) else Char.ofNat (87 + n)

/-- Escape one character as `json.dumps(..., ensure_ascii=False)` does:
quote and backslash escaped, control characters as short escapes or
`\u00XX`, everything else — non-ASCII included — kept verbatim. -/
def escapeChar (c : Char) : String :=
  if c = '"' then "\\\""
  else if c = '\\' then "\\\\"
  else if c = Char.ofNat 8 then "\\b"
  else if c = Char.ofNat 9 then "\\t"
  else if c = Char.ofNat 10 then "\\n"
  else if c = Char.ofNat 12 then "\\f"
  else if c = Char.ofNat 13 then "\\r"
  else if c.val < 32 then
    "\\u00" ++ String.mk [hexDigitChar (c.toNat / 16), hexDigitChar (c.toNat % 16)]
  else String.mk [c]

/-- JSON string literal encoding. -/
def dumpJString (s : String) : String :=
  "\"" ++ String.join (s.data.map escapeChar) ++ "\""

/-- JSON encoding of one scalar value. -/
def dumpJValue : JValue → String
  | .null => "null"
  | .bool true => "true"
  | .bool false => "false"
  | .num n => toString n
  | .str s => dumpJString s

/-- Compact JSON encoding of a mapping, i.e.
`json.dumps(params, ensure_ascii=False, separators=(",", ":"))`. -/
def jsonDumps (params : List (String × JValue)) : String :=
  "\x7b" ++ String.intercalate ","
    (params.map (fun kv => dumpJString kv.1 ++ ":" ++ dumpJValue kv.2)) ++ "\x7d"

/-- The `pad` closure inside `encrypt_params`: appends NUL characters up to a
multiple of 16 **characters** — Python's `len` on a `str` counts code points,
not UTF-8 bytes. -/
def pad (content : String) : String :=
  content ++ String.mk (List.replicate (16 - content.length % 16) (Char.ofNat 0))

/-- UTF-8 byte length of one character. -/
def charUtf8Len (c : Char) : Nat :=
  if c.val < 128 then 1
  else if c.val < 2048 then 2
  else if c.val < 65536 then 3
  else 4

/-- UTF-8 byte length of a string, i.e. `len(s.encode("utf8"))`. -/
def utf8ByteLength (s : String) : Nat :=
  (s.data.map charUtf8Len).sum

/-- Abstract model of the byte-level transport used by `encrypt_params` and
`decrypt_params`: `encrypt` stands for
`b64encode(AES.new(PARAM_KEY, MODE_CBC, PARAM_IV).encrypt(utf8(p)))` as a
function of the padded plaintext, and `decrypt` for the reverse composite
`utf8decode(AES.decrypt(b64decode(s)))`.  pycryptodome's precondition that
CBC only accepts data whose byte length is a multiple of 16 is checked in
`encrypt_params` itself. -/
structure ParamCipher where
  encrypt : String → String
  decrypt : String → String

/-- Embedding of `encrypt_params` (lines 87-96): compact-JSON encode, pad
with NULs, then encrypt.  The error value models the `ValueError` that
pycryptodome's CBC `encrypt` raises when the UTF-8 data is not a multiple of
16 bytes — possible because `pad` counts characters, not bytes. -/
def encrypt_params (cipher : ParamCipher) (params : List (String × JValue)) :
    Except String String :=
  let json_str := jsonDumps params
  let padded := pad json_str
  if utf8ByteLength padded % 16 = 0 then .ok (cipher.encrypt padded)
  else .error "Data must be padded to 16 byte boundary in CBC mode"

/-- NUL-character test for the `.strip("\x00")` padding removal. -/
def isNulChar (c : Char) : Bool := c == Char.ofNat 0

/-- Python's `s.strip("\x00")`: removes NUL characters from both ends. -/
def pyStripNul (s : String) : String :=
  String.mk (((s.data.dropWhile isNulChar).reverse.dropWhile isNulChar).reverse)

/-- JSON whitespace, skipped by `json.loads`. -/
def jsonWsChar (c : Char) : Bool :=
  c == ' ' || c == Char.ofNat 9 || c == Char.ofNat 10 || c == Char.ofNat 13

/-- Hexadecimal digit value. -/
def hexVal (c : Char) : Option Nat :=
  if 48 ≤ c.toNat ∧ c.toNat ≤ 57 then some (c.toNat - 48)
  else if 97 ≤ c.toNat ∧ c.toNat ≤ 102 then some (c.toNat - 87)
  else if 65 ≤ c.toNat ∧ c.toNat ≤ 70 then some (c.toNat - 55)
  else none

/-- Parse a JSON string body (after the opening quote), with fuel for the
escape recursion. -/
def parseJString : Nat → List Char → List Char → Option (String × List Char)
  | 0, _, _ => none
  | fuel + 1, cs, acc =>
    match cs with
    | [] => none
    | c :: rest =>
      if c = '"' then some (String.mk acc.reverse, rest)
      else if c = '\\' then
        match rest with
        | [] => none
        | e :: rest2 =>
          if e = '"' then parseJString fuel rest2 ('"' :: acc)
          else if e = '\\' then parseJString fuel rest2 ('\\' :: acc)
          else if e = '/' then parseJString fuel rest2 ('/' :: acc)
          else if e = 'b' then parseJString fuel rest2 (Char.ofNat 8 :: acc)
          else if e = 'f' then parseJString fuel rest2 (Char.ofNat 12 :: acc)
          else if e = 'n' then parseJString fuel rest2 (Char.ofNat 10 :: acc)
          else if e = 'r' then parseJString fuel rest2 (Char.ofNat 13 :: acc)
          else if e = 't' then parseJString fuel rest2 (Char.ofNat 9 :: acc)
          else if e = 'u' then
            match rest2 with
            | h1 :: h2 :: h3 :: h4 :: rest3 =>
              match hexVal h1, hexVal h2, hexVal h3, hexVal h4 with
              | some a, some b, some c2, some d =>
                parseJString fuel rest3
                  (Char.ofNat (4096 * a + 256 * b + 16 * c2 + d) :: acc)
              | _, _, _, _ => none
            | _ => none
          else none
      else parseJString fuel rest (c :: acc)

/-- Digit run to a natural number. -/
def digitsToNat (ds : List Char) : Nat :=
  ds.foldl (fun n c => 10 * n + (c.toNat - 48)) 0

/-- Parse a non-empty digit run. -/
def parseJNat (cs : List Char) : Option (Nat × List Char) :=
  let ds := cs.takeWhile Char.isDigit
  if ds.isEmpty then none
  else some (digitsToNat ds, cs.drop ds.length)

/-- Parse one scalar JSON value. -/
def parseJValue (fuel : Nat) (cs : List Char) : Option (JValue × List Char) :=
  match cs with
  | [] => none
  | c :: rest =>
    if c = 'n' then
      match rest with
      | 'u' :: 'l' :: 'l' :: rest2 => some (.null, rest2)
      | _ => none
    else if c = 't' then
      match rest with
      | 'r' :: 'u' :: 'e' :: rest2 => some (.bool true, rest2)
      | _ => none
    else if c = 'f' then
      match rest with
      | 'a' :: 'l' :: 's' :: 'e' :: rest2 => some (.bool false, rest2)
      | _ => none
    else if c = '"' then
      match parseJString fuel rest [] with
      | some (s, rest2) => some (.str s, rest2)
      | none => none
    else if c = '-' then
      match parseJNat rest with
      | some (n, rest2) => some (.num (-(n : Int)), rest2)
      | none => none
    else if c.isDigit then
      match parseJNat (c :: rest) with
      | some (n, rest2) => some (.num (n : Int), rest2)
      | none => none
    else none

/-- Parse the members of a JSON object (after the opening brace, on a
non-empty object). -/
def parseJMembers : Nat → List Char → List (String × JValue) →
    Option (List (String × JValue) × List Char)
  | 0, _, _ => none
  | fuel + 1, cs, acc =>
    let cs1 := cs.dropWhile jsonWsChar
    match cs1 with
    | [] => none
    | c :: rest =>
      if c = '"' then
        match parseJString fuel rest [] with
        | some (k, rest2) =>
          let rest3 := rest2.dropWhile jsonWsChar
          match rest3 with
          | [] => none
          | d :: rest4 =>
            if d = ':' then
              let rest5 := rest4.dropWhile jsonWsChar
              match parseJValue fuel rest5 with
              | some (v, rest6) =>
                let rest7 := rest6.dropWhile jsonWsChar
                match rest7 with
                | [] => none
                | e :: rest8 =>
                  if e = ',' then parseJMembers fuel rest8 ((k, v) :: acc)
                  else if e = Char.ofNat 125 then
                    some (((k, v) :: acc).reverse, rest8)
                  else none
              | none => none
            else none
        | none => none
      else none

/-- Model of `json.loads` restricted to flat string-keyed objects of scalar
values. -/
def jsonLoads (s : String) : Option (List (String × JValue)) :=
  let cs := s.data.dropWhile jsonWsChar
  match cs with
  | [] => none
  | c :: rest =>
    if c = Char.ofNat 123 then
      let rest1 := rest.dropWhile jsonWsChar
      match rest1 with
      | [] => none
      | d :: rest2 =>
        if d = Char.ofNat 125 then
          if (rest2.dropWhile jsonWsChar).isEmpty then some [] else none
        else
          match parseJMembers (s.length + 1) rest1 [] with
          | some (obj, rest3) =>
            if (rest3.dropWhile jsonWsChar).isEmpty then some obj else none
          | none => none
    else none

/-- Embedding of `decrypt_params` (lines 99-105): decrypt, strip the NUL
padding from both ends, then JSON-parse; `none` models a raised exception. -/
def decrypt_params (cipher : ParamCipher) (s : String) :
    Option (List (String × JValue)) :=
  jsonLoads (pyStripNul (cipher.decrypt s))

/-- The round trip of the claim, `decrypt_params(encrypt_params(x))`;
`none` models either call raising. -/
def param_round_trip (cipher : ParamCipher) (x : List (String × JValue)) :
    Option (List (String × JValue)) :=
  match encrypt_params cipher x with
  | .ok s => decrypt_params cipher s
  | .error _ => none

/-! ## Theorems -/

/-! ## Helper lemmas about `spliceCharge` -/

theorem spliceCharge_length (us cs : List DayEntry) (h : cs.length ≤ us.length) :
    (spliceCharge us cs).length = us.length := by
  induction us generalizing cs with
  | nil =>
    cases cs with
    | nil => rfl
    | cons c cs => simp at h
  | cons u us ih =>
    cases cs with
    | nil => rfl
    | cons c cs =>
      simp only [spliceCharge, List.length_cons]
      rw [ih]
      simpa using h

theorem spliceCharge_getD_lt (us cs : List DayEntry) (i : Nat)
    (hc : i < cs.length) (hu : i < us.length) :
    (spliceCharge us cs).getD i dummyDay =
      { us.getD i dummyDay with charge := (cs.getD i dummyDay).charge } := by
  induction us generalizing cs i with
  | nil => simp at hu
  | cons u us ih =>
    cases cs with
    | nil => simp at hc
    | cons c cs =>
      cases i with
      | zero => rfl
      | succ i =>
        simp only [spliceCharge, List.getD_cons_succ]
        exact ih cs i (by simpa using hc) (by simpa using hu)

theorem spliceCharge_getD_ge (us cs : List DayEntry) (i : Nat) (h : cs.length ≤ i) :
    (spliceCharge us cs).getD i dummyDay = us.getD i dummyDay := by
  induction us generalizing cs i with
  | nil =>
    cases cs with
    | nil => rfl
    | cons c cs => rfl
  | cons u us ih =>
    cases cs with
    | nil => rfl
    | cons c cs =>
      cases i with
      | zero => simp at h
      | succ i =>
        simp only [spliceCharge, List.getD_cons_succ]
        exact ih cs i (by simpa using h)

theorem merge_by_day_fst (c u : List DayEntry) (kc ku : Avail Rat) :
    (merge_by_day_data (.val c) kc (.val u) ku).1 =
      if u.length ≤ c.length then .val c else .val (spliceCharge u c) := rfl

theorem getD_mem_of_lt (l : List DayEntry) (i : Nat) (h : i < l.length) :
    l.getD i dummyDay ∈ l := by
  induction l generalizing i with
  | nil => simp at h
  | cons x xs ih =>
    cases i with
    | zero => simp
    | succ i =>
      simp only [List.getD_cons_succ]
      exact List.mem_cons_of_mem x (ih i (by simpa using h))

/-- C1: when both the usage and cost by-day series are available the merged
series has the length of the longer one; when the cost series is strictly
shorter than the usage series the merged series is the usage series with the
cost series' `charge` field spliced in at matching day indices, and entries
past the cost series' length keep no `charge` field; the merged month-total
kWh is the max of the two totals when both are available, the available one
when exactly one is, and unavailable when neither is. -/
theorem merge_by_day_data_spec
    (cost usage : List DayEntry) (a b : Rat) (kc ku : Avail Rat)
    (husage : ∀ e ∈ usage, e.charge = none) :
    (∃ L, (merge_by_day_data (.val cost) kc (.val usage) ku).1 = .val L ∧
      L.length = max cost.length usage.length) ∧
    (cost.length < usage.length →
      (merge_by_day_data (.val cost) kc (.val usage) ku).1
          = .val (spliceCharge usage cost) ∧
      (spliceCharge usage cost).length = usage.length ∧
      (∀ i, i < cost.length →
        ((spliceCharge usage cost).getD i dummyDay).charge
            = (cost.getD i dummyDay).charge ∧
        ((spliceCharge usage cost).getD i dummyDay).date
            = (usage.getD i dummyDay).date ∧
        ((spliceCharge usage cost).getD i dummyDay).kwh
            = (usage.getD i dummyDay).kwh) ∧
      (∀ i, cost.length ≤ i → i < usage.length →
        ((spliceCharge usage cost).getD i dummyDay).charge = none)) ∧
    (merge_by_day_data (.val cost) (.val a) (.val usage) (.val b)).2 = .val (max a b) ∧
    (merge_by_day_data (.val cost) .unavailable (.val usage) (.val b)).2 = .val b ∧
    (merge_by_day_data (.val cost) (.val a) (.val usage) .unavailable).2 = .val a ∧
    (merge_by_day_data (.val cost) (.unavailable) (.val usage)
        (.unavailable : Avail Rat)).2 = .unavailable := by
  refine ⟨?_, ?_, rfl, rfl, rfl, rfl⟩
  · rw [merge_by_day_fst]
    by_cases h : usage.length ≤ cost.length
    · exact ⟨cost, by rw [if_pos h], (max_eq_left h).symm⟩
    · push_neg at h
      refine ⟨spliceCharge usage cost, by rw [if_neg (not_le.mpr h)], ?_⟩
      rw [spliceCharge_length usage cost h.le]
      exact (max_eq_right h.le).symm
  · intro hlt
    refine ⟨?_, spliceCharge_length usage cost hlt.le, ?_, ?_⟩
    · rw [merge_by_day_fst, if_neg (not_le.mpr hlt)]
    · intro i hi
      rw [spliceCharge_getD_lt usage cost i hi (hi.trans hlt)]
      exact ⟨rfl, rfl, rfl⟩
    · intro i hge hiu
      rw [spliceCharge_getD_ge usage cost i hge]
      exact husage _ (getD_mem_of_lt usage i hiu)

/-- C1 witness: usage series of length 2 with no charge fields, cost series of
length 1; the merged series is the spliced usage series and the merged total is
the larger total. -/
theorem merge_by_day_data_spec_witness :
    (merge_by_day_data
        (.val [{ date := "d1", kwh := 1, charge := some 2 }]) (.val 10)
        (.val [{ date := "d1", kwh := 1, charge := none },
               { date := "d2", kwh := 3, charge := none }]) (.val 12)).1
      = .val (spliceCharge
          [{ date := "d1", kwh := 1, charge := none },
           { date := "d2", kwh := 3, charge := none }]
          [{ date := "d1", kwh := 1, charge := some 2 }]) ∧
    (merge_by_day_data
        (.val [{ date := "d1", kwh := 1, charge := some 2 }]) (.val 10)
        (.val [{ date := "d1", kwh := 1, charge := none },
               { date := "d2", kwh := 3, charge := none }]) (.val (12 : Rat))).2
      = .val (max 10 12) := by
  have h := merge_by_day_data_spec
    [{ date := "d1", kwh := 1, charge := some 2 }]
    [{ date := "d1", kwh := 1, charge := none },
     { date := "d2", kwh := 3, charge := none }]
    (10 : Rat) (12 : Rat) (.val 10) (.val 12) (by decide)
  exact ⟨(h.2.1 (by decide)).1, h.2.2.1⟩

/-- C2 (amended): the cache-policy flags satisfy
`update_last_month = (day ≤ 3) OR first-tick-ever` and
`update_last_year = (month = 1 AND day ≤ 7 AND last-update-day ≠ today) OR first-tick-ever`;
on day 15 with a prior tick both flags are false; on Jan 3 with prior ticks
but none today, `update_last_year` is true.  (On the very first tick both
flags are true regardless of month.) -/
theorem update_flags_spec (month day lud0 : Nat) (lud : Option Nat) :
    ((update_flags month day lud).1
        = (decide (day ≤ SETTING_LAST_MONTH_UPDATE_DAY_THRESHOLD) || lud.isNone)) ∧
    ((update_flags month day lud).2
        = ((decide (month = 1) && decide (day ≤ SETTING_LAST_YEAR_UPDATE_DAY_THRESHOLD)
            && !(lud == some day)) || lud.isNone)) ∧
    (update_flags month 15 (some lud0) = (false, false)) ∧
    (lud ≠ some 3 → (update_flags 1 3 lud).2 = true) := by
  refine ⟨?_, ?_, ?_, ?_⟩
  · cases lud with
    | none => simp [update_flags]
    | some l => simp [update_flags]
  · cases lud with
    | none => simp [update_flags]
    | some l => simp [update_flags]
  · simp [update_flags, SETTING_LAST_MONTH_UPDATE_DAY_THRESHOLD,
      SETTING_LAST_YEAR_UPDATE_DAY_THRESHOLD]
  · cases lud with
    | none => intro _; rfl
    | some l =>
      intro h
      have hl : l ≠ 3 := by
        intro hc
        exact h (by rw [hc])
      simp [update_flags, SETTING_LAST_YEAR_UPDATE_DAY_THRESHOLD, hl]

/-- C2 counterexample: on the very first tick (no prior tick recorded) with
today = day 2 of month 2 (February), the code sets `update_last_year = true`,
while the claim's concrete case says it should be true iff the month is
January. -/
theorem update_flags_counterexample :
    ¬ (((update_flags 2 2 none).2 = true) ↔ 2 = 1) := by decide

/-- C2 witness: on Jan 3 with a prior tick recorded on day 5,
`update_last_year` is true. -/
theorem update_flags_spec_witness :
    (update_flags 1 3 (some 5)).2 = true :=
  (update_flags_spec 1 3 0 (some 5)).2.2.2 (by decide)

/-- C3: per stubbed transport response, a non-200 HTTP status raises the
transport-error subtype; a 200 response with success status returns the
payload (the header token for the login endpoint); status `"04"` raises
`NotLoggedIn`; the wrong-credential status raises `InvalidCredentials` on
the password-login endpoint (and the generic error elsewhere); any other
non-success status raises the generic `CSGAPIError` with the vendor status
and message. -/
theorem status_code_dispatch (r : HttpResponse α) :
    (r.status_code ≠ 200 →
      raw_api_call r = .error (.http r.status_code) ∧
      api_login_with_password r = .error (.http r.status_code)) ∧
    (r.status_code = 200 → r.envelope.sta = RESP_STA_SUCCESS →
      raw_api_call r = .ok r.envelope.data ∧
      api_login_with_password r = .ok r.xAuthToken) ∧
    (r.status_code = 200 → r.envelope.sta = RESP_STA_NO_LOGIN →
      raw_api_call r = .error (.notLoggedIn r.envelope.sta r.envelope.message) ∧
      api_login_with_password r
          = .error (.notLoggedIn r.envelope.sta r.envelope.message)) ∧
    (r.status_code = 200 → r.envelope.sta = RESP_STA_LOGIN_WRONG_CREDENTIAL →
      api_login_with_password r
          = .error (.invalidCredentials r.envelope.sta r.envelope.message) ∧
      raw_api_call r = .error (.api r.envelope.sta r.envelope.message)) ∧
    (r.status_code = 200 → r.envelope.sta ≠ RESP_STA_SUCCESS →
      r.envelope.sta ≠ RESP_STA_NO_LOGIN →
      r.envelope.sta ≠ RESP_STA_LOGIN_WRONG_CREDENTIAL →
      raw_api_call r = .error (.api r.envelope.sta r.envelope.message) ∧
      api_login_with_password r
          = .error (.api r.envelope.sta r.envelope.message)) := by
  refine ⟨?_, ?_, ?_, ?_, ?_⟩
  · intro h
    constructor <;>
      simp [raw_api_call, api_login_with_password, make_request, h]
  · intro hsc hsta
    constructor <;>
      simp [raw_api_call, api_login_with_password, make_request, hsc, hsta]
  · intro hsc hsta
    have h1 : RESP_STA_NO_LOGIN ≠ RESP_STA_SUCCESS := by decide
    have h2 : RESP_STA_NO_LOGIN ≠ RESP_STA_LOGIN_WRONG_CREDENTIAL := by decide
    constructor <;>
      simp [raw_api_call, api_login_with_password, make_request,
        handle_unsuccessful_response, hsc, hsta, h1, h2]
  · intro hsc hsta
    have h1 : RESP_STA_LOGIN_WRONG_CREDENTIAL ≠ RESP_STA_SUCCESS := by decide
    have h2 : RESP_STA_LOGIN_WRONG_CREDENTIAL ≠ RESP_STA_NO_LOGIN := by decide
    constructor <;>
      simp [raw_api_call, api_login_with_password, make_request,
        handle_unsuccessful_response, hsc, hsta, h1, h2]
  · intro hsc hs1 hs2 hs3
    constructor <;>
      simp [raw_api_call, api_login_with_password, make_request,
        handle_unsuccessful_response, hsc, hs1, hs2, hs3]

/-- C3 witness: a stub 200 response with status `"04"` makes the raw call
raise `NotLoggedIn`. -/
theorem status_code_dispatch_witness :
    raw_api_call
        { status_code := 200, xAuthToken := "T1",
          envelope := { sta := "04", message := none, data := "payload" } }
      = .error (.notLoggedIn "04" none) :=
  ((status_code_dispatch
      { status_code := 200, xAuthToken := "T1",
        envelope := { sta := "04", message := none, data := "payload" } }).2.2.1
    rfl rfl).1

/-- C9: `verify_login` returns `false` exactly when the underlying call fails
with `NotLoggedIn`, returns `true` when it succeeds, and propagates transport
errors and generic API errors unchanged. -/
theorem verify_login_spec (r : HttpResponse α) :
    (r.status_code = 200 → r.envelope.sta = RESP_STA_SUCCESS →
      verify_login r = .ok true) ∧
    (r.status_code = 200 → r.envelope.sta = RESP_STA_NO_LOGIN →
      verify_login r = .ok false) ∧
    (r.status_code ≠ 200 → verify_login r = .error (.http r.status_code)) ∧
    (r.status_code = 200 → r.envelope.sta ≠ RESP_STA_SUCCESS →
      r.envelope.sta ≠ RESP_STA_NO_LOGIN →
      verify_login r = .error (.api r.envelope.sta r.envelope.message)) ∧
    (verify_login r = .ok false ↔
      ∃ s m, api_query_authentication_result r = .error (.notLoggedIn s m)) := by
  refine ⟨?_, ?_, ?_, ?_, ?_⟩
  · intro hsc hsta
    simp [verify_login, api_query_authentication_result, raw_api_call,
      make_request, hsc, hsta]
  · intro hsc hsta
    have h1 : RESP_STA_NO_LOGIN ≠ RESP_STA_SUCCESS := by decide
    simp [verify_login, api_query_authentication_result, raw_api_call,
      make_request, handle_unsuccessful_response, hsc, hsta, h1]
  · intro h
    simp [verify_login, api_query_authentication_result, raw_api_call,
      make_request, h]
  · intro hsc hs1 hs2
    simp [verify_login, api_query_authentication_result, raw_api_call,
      make_request, handle_unsuccessful_response, hsc, hs1, hs2]
  · constructor
    · intro h
      cases hq : api_query_authentication_result r with
      | ok d => simp [verify_login, hq] at h
      | error e =>
        cases e with
        | http c => simp [verify_login, hq] at h
        | notLoggedIn s m => exact ⟨s, m, rfl⟩
        | invalidCredentials s m => simp [verify_login, hq] at h
        | api s m => simp [verify_login, hq] at h
    · rintro ⟨s, m, hq⟩
      simp [verify_login, hq]

/-- C9 witness: a stub 200 response with the no-login status makes
`verify_login` return `false` rather than raise. -/
theorem verify_login_spec_witness :
    verify_login
        { status_code := 200, xAuthToken := "",
          envelope := { sta := "04", message := some "not logged in",
                        data := "x" } }
      = .ok false :=
  (verify_login_spec
      { status_code := 200, xAuthToken := "",
        envelope := { sta := "04", message := some "not logged in",
                      data := "x" } }).2.1 rfl rfl

/-- C8 counterexample: for the session with auth token `"T1"`, password login
type and customer number `"C1"`, restoring the dump yields a client whose
`customer_number` is reset to `""`, so the fields are not all identical. -/
theorem load_dump_counterexample :
    CSGClient.load (CSGClient.dump
        { auth_token := "T1", login_type := .pwd, customer_number := "C1" })
      ≠ .ok { auth_token := "T1", login_type := .pwd, customer_number := "C1" } := by
  intro hcontra
  have h2 := Except.ok.inj hcontra
  have h3 : ("" : String) = "C1" := congrArg CSGClient.customer_number h2
  exact absurd h3 (by decide)

/-- C8 (amended): for every session with a non-empty auth token,
`CSGClient.load (CSGClient.dump c)` succeeds purely (no network call is
modelled or needed) and restores `auth_token` and `login_type` exactly;
`customer_number` is not serialized and is reset to the empty string. -/
theorem load_dump_roundtrip (c : CSGClient) (h : c.auth_token ≠ "") :
    CSGClient.load (CSGClient.dump c)
      = .ok { auth_token := c.auth_token, login_type := c.login_type,
              customer_number := "" } := by
  have hval : LoginType.ofValue c.login_type.value = some c.login_type := by
    cases c.login_type <;> rfl
  have htr : pyTruthy (some c.auth_token) = true := by
    simp [pyTruthy, h]
  have htr2 : pyTruthy (some c.login_type.value) = true := by
    cases c.login_type <;> rfl
  simp [CSGClient.load, CSGClient.dump, htr, htr2, hval]

/-- C8 witness: the dump of session (auth token `"T1"`, password login,
customer number `"C1"`) restores to the same token and login type with an
empty customer number. -/
theorem load_dump_roundtrip_witness :
    CSGClient.load (CSGClient.dump
        { auth_token := "T1", login_type := .pwd, customer_number := "C1" })
      = .ok { auth_token := "T1", login_type := .pwd, customer_number := "" } :=
  load_dump_roundtrip
    { auth_token := "T1", login_type := .pwd, customer_number := "C1" }
    (by decide)

/-- C10: `CSGClient.load` raises `ValueError` whenever the `auth_token` or
`login_type` entry is missing or falsy; in particular the coordinator's
session-restore step, which passes a mapping holding only the `auth_token`
key, raises `ValueError` for every configured token, i.e. on every tick. -/
theorem load_missing_key_spec :
    (∀ data : SessionData,
      (pyTruthy data.auth_token = false ∨ pyTruthy data.login_type = false) →
      ∃ msg, CSGClient.load data = .error msg) ∧
    (∀ t : String,
      ∃ msg, CSGClient.load (refresh_client_session_data t) = .error msg) := by
  constructor
  · intro data hfalsy
    cases ha : pyTruthy data.auth_token with
    | false =>
      exact ⟨"missing parameter: auth_token", by simp [CSGClient.load, ha]⟩
    | true =>
      have hl : pyTruthy data.login_type = false := by
        rcases hfalsy with h | h
        · rw [ha] at h; simp at h
        · exact h
      exact ⟨"missing parameter: login_type", by simp [CSGClient.load, ha, hl]⟩
  · intro t
    cases ha : pyTruthy (some t) with
    | false =>
      exact ⟨"missing parameter: auth_token",
        by simp [CSGClient.load, refresh_client_session_data, ha]⟩
    | true =>
      have hnone : pyTruthy none = false := rfl
      exact ⟨"missing parameter: login_type",
        by simp [CSGClient.load, refresh_client_session_data, ha, hnone]⟩

/-- C10 witness: loading a mapping with only the auth-token key (as the
coordinator does with token `"TOK"`) raises a `ValueError`. -/
theorem load_missing_key_spec_witness :
    ∃ msg, CSGClient.load
        { auth_token := some "TOK", login_type := none } = .error msg :=
  load_missing_key_spec.1 { auth_token := some "TOK", login_type := none }
    (Or.inr rfl)

theorem Avail.toCache_ne_unchanged (x : Avail α) : x.toCache ≠ Cache.unchanged := by
  cases x <;> simp [Avail.toCache]

theorem exists_val_of_if (c : Prop) [Decidable c] (x y : α) :
    ∃ L, (if c then Avail.val x else Avail.val y) = Avail.val L := by
  by_cases h : c
  · exact ⟨x, if_pos h⟩
  · exact ⟨y, if_neg h⟩

theorem exists_cache_val_of_if (c : Prop) [Decidable c] (x y : α) :
    ∃ L, (Avail.toCache (if c then Avail.val x else Avail.val y)) = Cache.val L := by
  by_cases h : c
  · exact ⟨x, by rw [if_pos h]; rfl⟩
  · exact ⟨y, by rw [if_neg h]; rfl⟩

/-- C6: the derived latest-day fields prefer the last entry of this month's
merged series when it is available and non-empty; otherwise they fall back to
the last entry of last month's series when that one is a concrete
(non-unchanged) non-empty value, with the cost component unavailable; when
neither series yields an entry all three derived fields are unavailable. -/
theorem update_latest_day_spec
    (tl ll : List DayEntry) (e : DayEntry)
    (thisM : Avail (List DayEntry)) (lastM : Cache (List DayEntry)) :
    (tl.getLast? = some e →
      update_latest_day (.val tl) lastM
        = (.val e.kwh, py_or_unavailable e.charge, .val e.date)) ∧
    ((thisM = .unavailable ∨ thisM = .val []) → ll.getLast? = some e →
      update_latest_day thisM (.val ll)
        = (.val e.kwh, .unavailable, .val e.date)) ∧
    ((thisM = .unavailable ∨ thisM = .val []) →
      (lastM = .unavailable ∨ lastM = .unchanged ∨ lastM = .val []) →
      update_latest_day thisM lastM
        = (.unavailable, .unavailable, .unavailable)) := by
  refine ⟨?_, ?_, ?_⟩
  · intro h
    simp [update_latest_day, h]
  · rintro (rfl | rfl) h
    · simp [update_latest_day, latest_day_from_last_month, h]
    · simp [update_latest_day, latest_day_from_last_month, h]
  · rintro (rfl | rfl) (rfl | rfl | rfl) <;>
      simp [update_latest_day, latest_day_from_last_month]

/-- C6 witness: with a one-entry this-month series and an unchanged last-month
series, the derived fields come from that entry (its zero-charge handling
included). -/
theorem update_latest_day_spec_witness :
    update_latest_day
        (.val [{ date := "2023-05-03", kwh := 5, charge := some 2 }])
        (Cache.unchanged : Cache (List DayEntry))
      = (.val 5, py_or_unavailable (some 2), .val "2023-05-03") :=
  (update_latest_day_spec
      [{ date := "2023-05-03", kwh := 5, charge := some 2 }] []
      { date := "2023-05-03", kwh := 5, charge := some 2 }
      .unavailable .unchanged).1 rfl

/-- C7: the claimed fetch decision fails on the code.  On any tick after the
coordinator's first completed this-month update, `_this_month_update_completed_flag`
is already set (it is never cleared), so with the cache-policy last-month
flag false at tick start and both this-month fetches failing — merged
this-month series unavailable — the wait at sensor.py:708 returns without
suspending and the re-check at line 710 reads the stale tick-start flag:
all three last-month fields are marked `unchanged` instead of being fetched,
and the derived latest-day fields starve to unavailable.  The final conjunct
is the counterfactual that the claim, the spec and the code's own comments
describe: were the event still unset, so that the wait actually blocked
until the this-month update completed, the same tick would fetch last
month's data. -/
theorem last_month_fetch_skipped_despite_unavailable :
    (update_this_month_stats_and_ladder c7_failing_outcomes.this_month_usage
        c7_failing_outcomes.this_month_cost).by_day = Avail.unavailable ∧
    (update_account_data { if_update_last_month := false, if_update_last_year := false }
        true c7_failing_outcomes).last_month_kwh = Cache.unchanged ∧
    (update_account_data { if_update_last_month := false, if_update_last_year := false }
        true c7_failing_outcomes).last_month_cost = Cache.unchanged ∧
    (update_account_data { if_update_last_month := false, if_update_last_year := false }
        true c7_failing_outcomes).last_month_by_day = Cache.unchanged ∧
    (update_account_data { if_update_last_month := false, if_update_last_year := false }
        true c7_failing_outcomes).latest_day_kwh = Avail.unavailable ∧
    (update_account_data { if_update_last_month := false, if_update_last_year := false }
        true c7_failing_outcomes).latest_day_date = Avail.unavailable ∧
    (update_account_data { if_update_last_month := false, if_update_last_year := false }
        false c7_failing_outcomes).last_month_by_day
      = Cache.val [{ date := "2023-04-30", kwh := 20, charge := some 14 }] :=
  ⟨rfl, rfl, rfl, rfl, rfl, rfl, rfl⟩

/-- C4: on a tick with both cache-policy flags set where the yesterday-kWh
fetch raises `CSGAPIError` and every other facet call succeeds, the published
snapshot maps `yesterday_kwh` to the unavailable state while every other
facet field carries its fetched value, for any state of the this-month
completion event (with the last-month flag already set at tick start the
event path is not taken); the per-account update is a total function, so the
tick completes without raising. -/
theorem facet_failure_isolation
    (this_month_completed_flag_set : Bool)
    (sta : String) (msg : Option String)
    (b a tyc tyk lyc lyk : Rat) (tybm lybm : List MonthEntry)
    (uk tc tk luk : Rat) (lst : Int) (lsd : String) (lrk ltf : Rat)
    (ubd cbd lubd : List DayEntry) (lad2 : Ladder) (lcbd : List DayEntry) :
    (update_account_data { if_update_last_month := true, if_update_last_year := true }
        this_month_completed_flag_set (c4_outcomes sta msg b a tyc tyk lyc lyk tybm lybm uk tc tk luk lst lsd
          lrk ltf ubd cbd lubd lad2 lcbd)).yesterday_kwh = .unavailable ∧
    (update_account_data { if_update_last_month := true, if_update_last_year := true }
        this_month_completed_flag_set (c4_outcomes sta msg b a tyc tyk lyc lyk tybm lybm uk tc tk luk lst lsd
          lrk ltf ubd cbd lubd lad2 lcbd)).balance = .val b ∧
    (update_account_data { if_update_last_month := true, if_update_last_year := true }
        this_month_completed_flag_set (c4_outcomes sta msg b a tyc tyk lyc lyk tybm lybm uk tc tk luk lst lsd
          lrk ltf ubd cbd lubd lad2 lcbd)).arrears = .val a ∧
    (update_account_data { if_update_last_month := true, if_update_last_year := true }
        this_month_completed_flag_set (c4_outcomes sta msg b a tyc tyk lyc lyk tybm lybm uk tc tk luk lst lsd
          lrk ltf ubd cbd lubd lad2 lcbd)).this_year_kwh = .val tyk ∧
    (update_account_data { if_update_last_month := true, if_update_last_year := true }
        this_month_completed_flag_set (c4_outcomes sta msg b a tyc tyk lyc lyk tybm lybm uk tc tk luk lst lsd
          lrk ltf ubd cbd lubd lad2 lcbd)).this_year_cost = .val tyc ∧
    (update_account_data { if_update_last_month := true, if_update_last_year := true }
        this_month_completed_flag_set (c4_outcomes sta msg b a tyc tyk lyc lyk tybm lybm uk tc tk luk lst lsd
          lrk ltf ubd cbd lubd lad2 lcbd)).this_year_by_month = .val tybm ∧
    (update_account_data { if_update_last_month := true, if_update_last_year := true }
        this_month_completed_flag_set (c4_outcomes sta msg b a tyc tyk lyc lyk tybm lybm uk tc tk luk lst lsd
          lrk ltf ubd cbd lubd lad2 lcbd)).last_year_kwh = .val lyk ∧
    (update_account_data { if_update_last_month := true, if_update_last_year := true }
        this_month_completed_flag_set (c4_outcomes sta msg b a tyc tyk lyc lyk tybm lybm uk tc tk luk lst lsd
          lrk ltf ubd cbd lubd lad2 lcbd)).last_year_cost = .val lyc ∧
    (update_account_data { if_update_last_month := true, if_update_last_year := true }
        this_month_completed_flag_set (c4_outcomes sta msg b a tyc tyk lyc lyk tybm lybm uk tc tk luk lst lsd
          lrk ltf ubd cbd lubd lad2 lcbd)).last_year_by_month = .val lybm ∧
    (update_account_data { if_update_last_month := true, if_update_last_year := true }
        this_month_completed_flag_set (c4_outcomes sta msg b a tyc tyk lyc lyk tybm lybm uk tc tk luk lst lsd
          lrk ltf ubd cbd lubd lad2 lcbd)).this_month_cost = .val tc ∧
    (update_account_data { if_update_last_month := true, if_update_last_year := true }
        this_month_completed_flag_set (c4_outcomes sta msg b a tyc tyk lyc lyk tybm lybm uk tc tk luk lst lsd
          lrk ltf ubd cbd lubd lad2 lcbd)).this_month_kwh = .val (max tk uk) ∧
    (∃ L, (update_account_data { if_update_last_month := true, if_update_last_year := true }
        this_month_completed_flag_set (c4_outcomes sta msg b a tyc tyk lyc lyk tybm lybm uk tc tk luk lst lsd
          lrk ltf ubd cbd lubd lad2 lcbd)).this_month_by_day = .val L) ∧
    (update_account_data { if_update_last_month := true, if_update_last_year := true }
        this_month_completed_flag_set (c4_outcomes sta msg b a tyc tyk lyc lyk tybm lybm uk tc tk luk lst lsd
          lrk ltf ubd cbd lubd lad2 lcbd)).current_ladder = .val lst ∧
    (update_account_data { if_update_last_month := true, if_update_last_year := true }
        this_month_completed_flag_set (c4_outcomes sta msg b a tyc tyk lyc lyk tybm lybm uk tc tk luk lst lsd
          lrk ltf ubd cbd lubd lad2 lcbd)).current_ladder_remaining_kwh = .val lrk ∧
    (update_account_data { if_update_last_month := true, if_update_last_year := true }
        this_month_completed_flag_set (c4_outcomes sta msg b a tyc tyk lyc lyk tybm lybm uk tc tk luk lst lsd
          lrk ltf ubd cbd lubd lad2 lcbd)).current_ladder_tariff = .val ltf ∧
    (update_account_data { if_update_last_month := true, if_update_last_year := true }
        this_month_completed_flag_set (c4_outcomes sta msg b a tyc tyk lyc lyk tybm lybm uk tc tk luk lst lsd
          lrk ltf ubd cbd lubd lad2 lcbd)).current_ladder_start_date = .val lsd ∧
    (update_account_data { if_update_last_month := true, if_update_last_year := true }
        this_month_completed_flag_set (c4_outcomes sta msg b a tyc tyk lyc lyk tybm lybm uk tc tk luk lst lsd
          lrk ltf ubd cbd lubd lad2 lcbd)).last_month_kwh
        = .val (max (sum_kwh lcbd) luk) ∧
    (update_account_data { if_update_last_month := true, if_update_last_year := true }
        this_month_completed_flag_set (c4_outcomes sta msg b a tyc tyk lyc lyk tybm lybm uk tc tk luk lst lsd
          lrk ltf ubd cbd lubd lad2 lcbd)).last_month_cost
        = .val (sum_charges lcbd) ∧
    (∃ L, (update_account_data { if_update_last_month := true, if_update_last_year := true }
        this_month_completed_flag_set (c4_outcomes sta msg b a tyc tyk lyc lyk tybm lybm uk tc tk luk lst lsd
          lrk ltf ubd cbd lubd lad2 lcbd)).last_month_by_day = .val L) := by
  refine ⟨rfl, rfl, rfl, rfl, rfl, rfl, rfl, rfl, rfl, rfl, rfl, ?_, rfl, rfl,
    rfl, rfl, rfl, rfl, ?_⟩
  · show ∃ L, (if ubd.length ≤ cbd.length then Avail.val cbd
      else Avail.val (spliceCharge ubd cbd)) = Avail.val L
    exact exists_val_of_if _ _ _
  · show ∃ L, Avail.toCache (if lubd.length ≤ lcbd.length then Avail.val lcbd
      else Avail.val (spliceCharge lubd lcbd)) = Cache.val L
    exact exists_cache_val_of_if _ _ _

/-- C5: the round trip fails on the Unicode mapping `\x7b"a": "中"\x7d`: its
compact JSON is 9 characters, `pad` appends 7 NULs to reach 16 characters,
but the UTF-8 encoding is 18 bytes, so the CBC cipher raises `ValueError`
regardless of the cipher model — `decrypt_params(encrypt_params(x))` never
returns `x` for this mapping. -/
theorem encrypt_params_unicode_value_error (cipher : ParamCipher) :
    jsonDumps [("a", JValue.str "中")] = "\x7b\"a\":\"中\"\x7d" ∧
    (jsonDumps [("a", JValue.str "中")]).length = 9 ∧
    utf8ByteLength (pad (jsonDumps [("a", JValue.str "中")])) = 18 ∧
    encrypt_params cipher [("a", JValue.str "中")]
      = .error "Data must be padded to 16 byte boundary in CBC mode" ∧
    param_round_trip cipher [("a", JValue.str "中")] = none := by
  refine ⟨by decide, by decide, by decide, rfl, rfl⟩

/-- Round trip on the empty mapping, evaluated with an identity transport
(standing for any cipher whose decrypt inverts its encrypt): the compact
JSON `\x7b\x7d` is ASCII, padding takes it to 16 characters = 16 bytes,
and stripping NULs and parsing restores the mapping. -/
theorem param_round_trip_empty :
    param_round_trip { encrypt := fun s => s, decrypt := fun s => s } []
      = some [] := by decide

/-- Round trip on an ASCII mapping shaped like the login payload, with the
identity transport. -/
theorem param_round_trip_ascii :
    param_round_trip { encrypt := fun s => s, decrypt := fun s => s }
        [("acctId", JValue.str "123"), ("checkPwd", JValue.bool true)]
      = some [("acctId", JValue.str "123"), ("checkPwd", JValue.bool true)] := by
  decide

end CSG
